import Mathlib

/-!
Shallow embedding of the vmtb bench control plane (igt-gpu-tools tools/vmtb):
profile selection (`bench/configurators/vgpu_profile_config.py`), device VF
lifecycle and provisioning (`bench/machines/physical/device.py`), the QMP
monitor queue (`bench/machines/virtual/backends/qmp_monitor.py`) and the
guest-agent send path (`bench/machines/virtual/backends/guestagent.py`),
together with theorems settling the specification claims about them.
-/

/-- Exceptions that the modelled code can raise.  `HostError`,
`VgpuProfileError` and `GuestAgentError` come from `bench/exceptions.py`;
`AssertionError` models Python's built-in assertion failure. -/
inductive PyError where
  | HostError (msg : String)
  | AssertionError
  | GuestAgentError (msg : String)
  | VgpuProfileError (msg : String)
  deriving DecidableEq, Repr

/-! ## Profile catalog data model (`bench/configurators/vgpu_profile.py`) -/

/-- `VgpuResourcesConfig` dataclass: all fields default to 0. -/
structure VgpuResourcesConfig where
  pfLmem : Nat := 0
  pfContexts : Nat := 0
  pfDoorbells : Nat := 0
  pfGgtt : Nat := 0
  vfLmem : Nat := 0
  vfContexts : Nat := 0
  vfDoorbells : Nat := 0
  vfGgtt : Nat := 0
  deriving DecidableEq, Repr

/-- `VgpuSchedulerConfig` dataclass: all fields default to false/0. -/
structure VgpuSchedulerConfig where
  scheduleIfIdle : Bool := false
  pfExecutionQuanta : Nat := 0
  pfPreemptionTimeout : Nat := 0
  vfExecutionQuanta : Nat := 0
  vfPreemptionTimeout : Nat := 0
  deriving DecidableEq, Repr

/-- `VgpuProfilePfResourcesDefinition` dataclass (one parsed PF entry). -/
structure VgpuProfilePfResourcesDefinition where
  profile_name : String
  local_memory_ecc_off : Nat
  local_memory_ecc_on : Nat
  contexts : Nat
  doorbells : Nat
  ggtt_size : Nat
  deriving DecidableEq, Repr

/-- `VgpuProfileVfResourcesDefinition` dataclass (one parsed VF entry). -/
structure VgpuProfileVfResourcesDefinition where
  profile_name : String
  vf_count : Nat
  local_memory_ecc_off : Nat
  local_memory_ecc_on : Nat
  contexts : Nat
  doorbells : Nat
  ggtt_size : Nat
  deriving DecidableEq, Repr

/-- `VgpuProfileSchedulerDefinition` dataclass.  The two VF formula strings
from the JSON are evaluated with Python `eval` into unary functions of the
requested VF count; they are embedded directly as functions. -/
structure VgpuProfileSchedulerDefinition where
  profile_name : String
  schedule_if_idle : Bool
  pf_execution_quanta : Nat
  pf_preemption_timeout : Nat
  vf_execution_quanta : Nat → Nat
  vf_preemption_timeout : Nat → Nat

/-- `VgpuProfilesDefinitions` dataclass: the parsed profile catalog
(security entries are omitted here: no claim concerns them). -/
structure VgpuProfilesDefinitions where
  pf_resource_default : String
  pf_resources : List VgpuProfilePfResourcesDefinition
  vf_resource_default : String
  vf_resources : List VgpuProfileVfResourcesDefinition
  scheduler_config_default : String
  scheduler_configs : List VgpuProfileSchedulerDefinition

/-- `VfSchedulingMode` enum (`vgpu_profile_config.py`). -/
inductive VfSchedulingMode where
  | INFINITE
  | DEFAULT_PROFILE
  | FLEXIBLE_30FPS
  | FIXED_30FPS
  | FLEXIBLE_BURSTABLE_QOS
  deriving DecidableEq, Repr

/-- String value of each `VfSchedulingMode` member (it is a `str` enum, so
Python comparisons against profile names use this value). -/
def VfSchedulingMode.str : VfSchedulingMode → String
  | .INFINITE => "Infinite"
  | .DEFAULT_PROFILE => "Default_Profile"
  | .FLEXIBLE_30FPS => "Flexible_30fps_GPUTimeSlicing"
  | .FIXED_30FPS => "Fixed_30fps_GPUTimeSlicing"
  | .FLEXIBLE_BURSTABLE_QOS => "Flexible_BurstableQoS_GPUTimeSlicing"

namespace VgpuProfileConfigurator

/-- The PF-resource pass of `select_vgpu_resources_profile`: every entry whose
name equals the catalog default overwrites the PF fields of the config. -/
def pfResourcesPass (defs : VgpuProfilesDefinitions) : VgpuResourcesConfig :=
  defs.pf_resources.foldl
    (fun cfg pf =>
      if pf.profile_name = defs.pf_resource_default then
        { cfg with
          pfLmem := pf.local_memory_ecc_on
          pfContexts := pf.contexts
          pfDoorbells := pf.doorbells
          pfGgtt := pf.ggtt_size }
      else cfg)
    {}

/-- One VF entry matches when its count equals the request exactly, or
approximately: `requested < vf_count ≤ requested + 2` (the `elif` branch). -/
def vfResourceMatches (requested : Nat) (vf : VgpuProfileVfResourcesDefinition) : Prop :=
  vf.vf_count = requested ∨ (requested < vf.vf_count ∧ vf.vf_count ≤ requested + 2)

instance (requested : Nat) (vf : VgpuProfileVfResourcesDefinition) :
    Decidable (vfResourceMatches requested vf) := by
  unfold vfResourceMatches; infer_instance

/-- The VF-resource scan of `select_vgpu_resources_profile`: walk the catalog
list in order and stop (`break`) at the first entry that matches exactly or
approximately. -/
def findVfResource (requested : Nat) :
    List VgpuProfileVfResourcesDefinition → Option VgpuProfileVfResourcesDefinition
  | [] => none
  | vf :: rest =>
    if vfResourceMatches requested vf then some vf
    else findVfResource requested rest

/-- Copy a matched VF entry's values into the config (the four assignments
guarded by `is_vf_resource_found`). -/
def applyVfResource (cfg : VgpuResourcesConfig)
    (vf : VgpuProfileVfResourcesDefinition) : VgpuResourcesConfig :=
  { cfg with
    vfLmem := vf.local_memory_ecc_on
    vfContexts := vf.contexts
    vfDoorbells := vf.doorbells
    vfGgtt := vf.ggtt_size }

/-- `VgpuProfileConfigurator.select_vgpu_resources_profile`. -/
def select_vgpu_resources_profile (defs : VgpuProfilesDefinitions)
    (requested_num_vfs : Nat) : Except PyError VgpuResourcesConfig :=
  let cfg := pfResourcesPass defs
  match findVfResource requested_num_vfs defs.vf_resources with
  | some vf => .ok (applyVfResource cfg vf)
  | none => .error (.VgpuProfileError "vGPU VF resources profile not found!")

/-- One iteration of the `select_vgpu_scheduler_profile` loop: an entry whose
name equals the requested mode's string value overwrites all five fields
(evaluating the entry's VF formulas at the requested VF count); any other
entry leaves the config unchanged. -/
def schedulerFoldStep (requested_num_vfs : Nat) (target : String)
    (cfg : VgpuSchedulerConfig) (sched : VgpuProfileSchedulerDefinition) :
    VgpuSchedulerConfig :=
  if sched.profile_name = target then
    { scheduleIfIdle := sched.schedule_if_idle
      pfExecutionQuanta := sched.pf_execution_quanta
      pfPreemptionTimeout := sched.pf_preemption_timeout
      vfExecutionQuanta := sched.vf_execution_quanta requested_num_vfs
      vfPreemptionTimeout := sched.vf_preemption_timeout requested_num_vfs }
  else cfg

/-- `VgpuProfileConfigurator.select_vgpu_scheduler_profile`.  For `INFINITE`
the default (all-zero) config is returned at once; otherwise the loop runs
over the whole catalog (it does not break, so the last match wins). -/
def select_vgpu_scheduler_profile (defs : VgpuProfilesDefinitions)
    (requested_num_vfs : Nat) (requested_scheduler : VfSchedulingMode) :
    VgpuSchedulerConfig :=
  if requested_scheduler = VfSchedulingMode.INFINITE then {}
  else
    defs.scheduler_configs.foldl
      (schedulerFoldStep requested_num_vfs requested_scheduler.str) {}

end VgpuProfileConfigurator

/-! ## Device model (`bench/machines/physical/device.py`)

The driver layer (`bench/drivers/xe.py`) reads and writes sysfs/debugfs
attributes.  The attribute store is modelled as `SysfsState`; what the kernel
actually stores on a `numvfs`/`autoprobe` write is mediated by a `DriverEnv`
(a fully functional device stores the written value unchanged), which keeps
the readback-verification branches of `device.py` live. -/

/-- `SchedulingPriority` enum (`bench/drivers/driver_interface.py`). -/
inductive SchedulingPriority where
  | LOW
  | NORMAL
  | HIGH
  deriving DecidableEq, Repr

/-- `VgpuProfile` dataclass, restricted to the fields `Device.provision` and
`Device.reset_provisioning` consume. -/
structure VgpuProfile where
  num_vfs : Nat := 0
  scheduler : VgpuSchedulerConfig := {}
  resources : VgpuResourcesConfig := {}
  reset_after_vf_switch : Bool := false
  deriving DecidableEq, Repr

/-- The sysfs/debugfs attribute store of one GPU.  Per-GT attributes are
functions of the GT number; per-function attributes are functions of
`(fn_num, gt_num)` with `fn_num = 0` for the PF and `1..n` for VFs. -/
structure SysfsState where
  num_gts : Nat
  numvfs : Nat
  autoprobe : Nat
  sched_if_idle : Nat → Nat
  reset_engine : Nat → Nat
  sched_priority : Nat → SchedulingPriority
  exec_quantum : Nat → Nat → Nat
  preempt_timeout : Nat → Nat → Nat
  doorbells_quota : Nat → Nat → Nat
  lmem_quota : Nat → Nat → Nat
  ggtt_quota : Nat → Nat → Nat
  contexts_quota : Nat → Nat → Nat

/-- What the kernel stores when the code writes `numvfs` or
`drivers_autoprobe`; `applyNumvfs = id` and `applyAutoprobe = id` model a
fully functional device. -/
structure DriverEnv where
  applyNumvfs : Nat → Nat
  applyAutoprobe : Nat → Nat

/-- The driver calls `Device` methods issue, in issue order. -/
inductive DriverCall where
  | setNumvfs (n : Nat)
  | getNumvfs
  | setAutoprobe (v : Nat)
  | getAutoprobe
  | setPfPolicySchedIfIdle (gt v : Nat)
  | setPfPolicyResetEngine (gt v : Nat)
  | setExecQuantumMs (fn gt v : Nat)
  | setPreemptTimeoutUs (fn gt v : Nat)
  | setDoorbellsQuota (fn gt v : Nat)
  | setLmemQuota (fn gt v : Nat)
  | setGgttQuota (fn gt v : Nat)
  | setContextsQuota (fn gt v : Nat)
  | setSchedPriority (gt : Nat) (p : SchedulingPriority)
  deriving DecidableEq, Repr

/-- Point update of a per-GT attribute map. -/
def upd1 {α : Type} (f : Nat → α) (k : Nat) (v : α) : Nat → α :=
  fun i => if i = k then v else f i

/-- Point update of a per-(function, GT) attribute map. -/
def upd2 {α : Type} (f : Nat → Nat → α) (a b : Nat) (v : α) : Nat → Nat → α :=
  fun i j => if i = a ∧ j = b then v else f i j

/-- Effect of one driver call on the attribute store. -/
def applyCall (env : DriverEnv) (s : SysfsState) : DriverCall → SysfsState
  | .setNumvfs n => { s with numvfs := env.applyNumvfs n }
  | .getNumvfs => s
  | .setAutoprobe v => { s with autoprobe := env.applyAutoprobe v }
  | .getAutoprobe => s
  | .setPfPolicySchedIfIdle gt v => { s with sched_if_idle := upd1 s.sched_if_idle gt v }
  | .setPfPolicyResetEngine gt v => { s with reset_engine := upd1 s.reset_engine gt v }
  | .setExecQuantumMs fn gt v => { s with exec_quantum := upd2 s.exec_quantum fn gt v }
  | .setPreemptTimeoutUs fn gt v => { s with preempt_timeout := upd2 s.preempt_timeout fn gt v }
  | .setDoorbellsQuota fn gt v => { s with doorbells_quota := upd2 s.doorbells_quota fn gt v }
  | .setLmemQuota fn gt v => { s with lmem_quota := upd2 s.lmem_quota fn gt v }
  | .setGgttQuota fn gt v => { s with ggtt_quota := upd2 s.ggtt_quota fn gt v }
  | .setContextsQuota fn gt v => { s with contexts_quota := upd2 s.contexts_quota fn gt v }
  | .setSchedPriority gt p => { s with sched_priority := upd1 s.sched_priority gt p }

namespace Device

/-- `Device.set_drivers_autoprobe`: write the flag, read it back, and raise
`HostError` on mismatch.  Returns the driver-call trace alongside the
result. -/
def set_drivers_autoprobe (env : DriverEnv) (val : Bool) (s : SysfsState) :
    List DriverCall × Except PyError SysfsState :=
  let n : Nat := if val then 1 else 0
  let s1 := { s with autoprobe := env.applyAutoprobe n }
  ([.setAutoprobe n, .getAutoprobe],
   if s1.autoprobe = n then .ok s1
   else .error (.HostError "Autoprobe value mismatch"))

/-- `Device.remove_vfs`: write VF count 0, raise `HostError` unless the
readback is 0, then re-enable autoprobe; returns the confirmed count 0. -/
def remove_vfs (env : DriverEnv) (s : SysfsState) :
    List DriverCall × Except PyError (Nat × SysfsState) :=
  let s1 := { s with numvfs := env.applyNumvfs 0 }
  let t1 : List DriverCall := [.setNumvfs 0, .getNumvfs]
  if s1.numvfs ≠ 0 then
    (t1, .error (.HostError "VFs not disabled after 0 write"))
  else
    let (t2, r2) := set_drivers_autoprobe env true s1
    (t1 ++ t2, r2.map fun s2 => (0, s2))

/-- `Device.create_vf`: if VFs are active, remove them first; disable
autoprobe; write the requested count; `assert` that the readback equals the
request (an `AssertionError` on mismatch); return the confirmed count. -/
def create_vf (env : DriverEnv) (num : Nat) (s : SysfsState) :
    List DriverCall × Except PyError (Nat × SysfsState) :=
  let (t0, r0) : List DriverCall × Except PyError SysfsState :=
    if s.numvfs ≠ 0 then
      let (t, r) := remove_vfs env s
      (DriverCall.getNumvfs :: t, r.map Prod.snd)
    else ([.getNumvfs], .ok s)
  match r0 with
  | .error e => (t0, .error e)
  | .ok s1 =>
    let (t1, r1) := set_drivers_autoprobe env false s1
    match r1 with
    | .error e => (t0 ++ t1, .error e)
    | .ok s2 =>
      let s3 := { s2 with numvfs := env.applyNumvfs num }
      (t0 ++ t1 ++ [.setNumvfs num, .getNumvfs],
       if s3.numvfs = num then .ok (num, s3) else .error .AssertionError)

/-- PF GT list of `Device.provision`: `[0]` on a single-tile device, else
`[0, 1]`. -/
def pfGtNums (num_gts : Nat) : List Nat :=
  if num_gts = 1 then [0] else [0, 1]

/-- GT list used for one VF inside the provisioning loop: on a multi-tile
device with more than one VF, odd VFs go to GT0 and even VFs to GT1;
otherwise the PF GT list is kept. -/
def vfGtNums (num_gts num_vfs vf_num : Nat) : List Nat :=
  if 1 < num_gts ∧ 1 < num_vfs then
    (if vf_num % 2 = 1 then [0] else [1])
  else pfGtNums num_gts

/-- PF writes of `Device.provision` for one GT. -/
def pfProvisionCalls (profile : VgpuProfile) (gt : Nat) : List DriverCall :=
  [ .setPfPolicySchedIfIdle gt (if profile.scheduler.scheduleIfIdle then 1 else 0),
    .setPfPolicyResetEngine gt (if profile.reset_after_vf_switch then 1 else 0),
    .setExecQuantumMs 0 gt profile.scheduler.pfExecutionQuanta,
    .setPreemptTimeoutUs 0 gt profile.scheduler.pfPreemptionTimeout,
    .setDoorbellsQuota 0 gt profile.resources.pfDoorbells ]

/-- Per-(VF, GT) writes of `Device.provision`. -/
def vfProvisionCalls (profile : VgpuProfile) (vf gt : Nat) : List DriverCall :=
  [ .setLmemQuota vf gt profile.resources.vfLmem,
    .setGgttQuota vf gt profile.resources.vfGgtt,
    .setContextsQuota vf gt profile.resources.vfContexts,
    .setDoorbellsQuota vf gt profile.resources.vfDoorbells,
    .setExecQuantumMs vf gt profile.scheduler.vfExecutionQuanta,
    .setPreemptTimeoutUs vf gt profile.scheduler.vfPreemptionTimeout ]

/-- The full driver-call sequence of `Device.provision`: PF writes on the PF
GT list, then the per-VF writes for VF numbers `1..num_vfs` on each VF's GT
list. -/
def provisionCalls (profile : VgpuProfile) (num_gts : Nat) : List DriverCall :=
  (pfGtNums num_gts).flatMap (pfProvisionCalls profile) ++
    (List.range' 1 profile.num_vfs).flatMap
      (fun vf => (vfGtNums num_gts profile.num_vfs vf).flatMap (vfProvisionCalls profile vf))

/-- `Device.provision`: emits `provisionCalls` in order and applies them to
the attribute store (the method performs no readback, so it cannot fail). -/
def provision (env : DriverEnv) (profile : VgpuProfile) (s : SysfsState) :
    List DriverCall × SysfsState :=
  (provisionCalls profile s.num_gts,
   (provisionCalls profile s.num_gts).foldl (applyCall env) s)

/-- One body of the inner loop of `Device.reset_provisioning`: zero the
contexts, doorbells, ggtt and lmem quota of VF `v` on GT `gt`, in that
order. -/
def zeroBlock (env : DriverEnv) (v gt : Nat) (s : SysfsState) : SysfsState :=
  applyCall env
    (applyCall env
      (applyCall env
        (applyCall env s (.setContextsQuota v gt 0))
        (.setDoorbellsQuota v gt 0))
      (.setGgttQuota v gt 0))
    (.setLmemQuota v gt 0)

/-- Zero the four per-VF quotas for each VF number in the list, in order
(the inner loop of `Device.reset_provisioning`). -/
def zeroVfQuotas (env : DriverEnv) (gt : Nat) :
    List Nat → SysfsState → SysfsState
  | [], s => s
  | v :: rest, s => zeroVfQuotas env gt rest (zeroBlock env v gt s)

/-- The conditional priority restore opening each GT iteration of
`Device.reset_provisioning`: set the scheduling priority to `LOW` only when
it is not already there. -/
def priorityRestore (env : DriverEnv) (gt : Nat) (s : SysfsState) : SysfsState :=
  if s.sched_priority gt ≠ SchedulingPriority.LOW then
    applyCall env s (.setSchedPriority gt .LOW)
  else s

/-- The five PF-attribute zero writes of one GT iteration of
`Device.reset_provisioning`, in issue order. -/
def pfZeroWrites (env : DriverEnv) (gt : Nat) (s : SysfsState) : SysfsState :=
  [DriverCall.setPfPolicySchedIfIdle gt 0,
   DriverCall.setPfPolicyResetEngine gt 0,
   DriverCall.setExecQuantumMs 0 gt 0,
   DriverCall.setPreemptTimeoutUs 0 gt 0,
   DriverCall.setDoorbellsQuota 0 gt 0].foldl (applyCall env) s

/-- One GT iteration of `Device.reset_provisioning`: restore the scheduling
priority to `LOW` when it is not already there, zero the PF policy fields,
PF execution quantum/preemption timeout and PF doorbells, then zero every
VF's quotas. -/
def resetGt (env : DriverEnv) (num_vfs gt : Nat) (s : SysfsState) : SysfsState :=
  zeroVfQuotas env gt (List.range' 1 num_vfs)
    (pfZeroWrites env gt (priorityRestore env gt s))

/-- `Device.reset_provisioning`: the GT iteration over every GT of the
device. -/
def reset_provisioning (env : DriverEnv) (num_vfs : Nat) (s : SysfsState) :
    SysfsState :=
  (List.range s.num_gts).foldl (fun s' gt => resetGt env num_vfs gt s') s

end Device

/-! ## QMP monitor (`bench/machines/virtual/backends/qmp_monitor.py`) -/

/-- The thread-safe FIFO `queue.Queue` shared between the background reader
and all consumers, modelled by its item list in queue order. -/
structure Queue (α : Type) where
  items : List α
  deriving DecidableEq, Repr

namespace Queue

/-- `queue.Queue.put`: append at the tail. -/
def put {α : Type} (q : Queue α) (a : α) : Queue α :=
  ⟨q.items ++ [a]⟩

/-- `queue.Queue.get`: pop the head (`none` models a get that would
block on an empty queue). -/
def get {α : Type} : Queue α → Option (α × Queue α)
  | ⟨[]⟩ => none
  | ⟨a :: rest⟩ => some (a, ⟨rest⟩)

/-- Pop the whole queue with successive `get` calls; the list is the order
in which a single consumer receives the messages. -/
def drainAll {α : Type} : Queue α → List α
  | ⟨[]⟩ => []
  | ⟨a :: rest⟩ => a :: drainAll ⟨rest⟩

end Queue

namespace QmpMonitor

/-- `QmpMonitor.__queue_qmp_output`: the single background reader.  It pulls
lines from the socket until the `iter(out.readline, '')` sentinel (an empty
line), decodes each line (`json.loads`, abstracted as `decode`) and puts the
decoded object on the shared queue.  `lines` is the arrival-ordered line
sequence produced by the socket. -/
def queue_qmp_output {α : Type} (decode : String → α) :
    List String → Queue α → Queue α
  | [], q => q
  | line :: rest, q =>
    if line = "" then q
    else queue_qmp_output decode rest (q.put (decode line))

/-- One job record of a `query-jobs` response: `param.get('type')`,
`param.get('status')` and `param.get('error')` may each be absent. -/
structure JobRecord where
  jtype : Option String
  status : Option String
  error : Option String
  deriving DecidableEq, Repr

/-- The scan loop of `QmpMonitor.query_jobs`: each record overwrites the
status/error variables and the loop breaks at the first record whose type
equals the requested one; with no break the last record's values remain. -/
def queryJobsLoop (requested : String) (acc : Option String × Option String) :
    List JobRecord → Option String × Option String
  | [] => acc
  | r :: rest =>
    if r.jtype = some requested then (r.status, r.error)
    else queryJobsLoop requested (r.status, r.error) rest

/-- `QmpMonitor.query_jobs`, applied to the queue message popped for the
response: when the message carries a `return` member (a job-record list) the
scan loop runs over it, otherwise the initial empty-string pair is
returned. -/
def query_jobs (requested : String) (response : Option (List JobRecord)) :
    Option String × Option String :=
  match response with
  | none => (some "", some "")
  | some jobs => queryJobsLoop requested (some "", some "") jobs

end QmpMonitor

/-! ## Guest agent (`bench/machines/virtual/backends/guestagent.py`) -/

namespace GuestAgentBackend

/-- Outcome of the `sockf.readline()` call inside
`GuestAgentBackend.__send`, at the decoded-JSON level: the read can time
out, return no output (`None`), or return one decoded response object. -/
inductive ReadOutcome (α : Type) where
  | timeout
  | noOutput
  | line (msg : α)
  deriving DecidableEq, Repr

/-- The response path of `GuestAgentBackend.__send`: a socket timeout closes
the socket and raises `GuestAgentError`; a `None` output raises
`GuestAgentError`; any decoded response object is returned to the caller —
an `error` member in it is only logged (`hasError` tells whether the object
carries one; it does not influence the result). -/
def send {α : Type} (hasError : α → Bool) (read : ReadOutcome α) :
    Except PyError α :=
  match read with
  | .timeout => .error (.GuestAgentError "Socket timed out")
  | .noOutput => .error (.GuestAgentError "Command did not return output")
  | .line msg =>
    let _ := hasError msg -- logged only
    .ok msg

end GuestAgentBackend

/-! ## Concrete fixtures for witnesses and counterexamples -/

/-- Build one VF-resource catalog entry. -/
def vfRes (name : String) (count lmem ctx db ggtt : Nat) :
    VgpuProfileVfResourcesDefinition :=
  { profile_name := name, vf_count := count, local_memory_ecc_off := lmem,
    local_memory_ecc_on := lmem, contexts := ctx, doorbells := db,
    ggtt_size := ggtt }

def vfEntry3 : VgpuProfileVfResourcesDefinition := vfRes "vGPU-P3" 3 300 30 13 3000

def vfEntry4 : VgpuProfileVfResourcesDefinition := vfRes "vGPU-P4" 4 400 40 14 4000

def vfEntry5 : VgpuProfileVfResourcesDefinition := vfRes "vGPU-P5" 5 500 50 15 5000

/-- A catalog with the given VF-resource entry list (no PF entries, no
scheduler entries). -/
def mkDefs (l : List VgpuProfileVfResourcesDefinition) : VgpuProfilesDefinitions :=
  { pf_resource_default := "PF-default", pf_resources := [],
    vf_resource_default := "vGPU-default", vf_resources := l,
    scheduler_config_default := "Flexible_30fps_GPUTimeSlicing",
    scheduler_configs := [] }

/-- Catalog listing the 4-VF entry before the 3-VF entry. -/
def defsApproxFirst : VgpuProfilesDefinitions := mkDefs [vfEntry4, vfEntry3]

/-- Catalog listing the 5-VF entry before the 4-VF entry. -/
def defsUnsorted : VgpuProfilesDefinitions := mkDefs [vfEntry5, vfEntry4]

/-- Catalog sorted by ascending VF count. -/
def defsSorted : VgpuProfilesDefinitions := mkDefs [vfEntry3, vfEntry4]

/-! ## Helper lemmas: VF-resource scan -/

theorem findVfResource_first (requested : Nat)
    (pre post : List VgpuProfileVfResourcesDefinition)
    (r : VgpuProfileVfResourcesDefinition)
    (hpre : ∀ e ∈ pre, ¬ VgpuProfileConfigurator.vfResourceMatches requested e)
    (hr : VgpuProfileConfigurator.vfResourceMatches requested r) :
    VgpuProfileConfigurator.findVfResource requested (pre ++ r :: post) = some r := by
  induction pre with
  | nil => simp [VgpuProfileConfigurator.findVfResource, hr]
  | cons e rest ih =>
    have he : ¬ VgpuProfileConfigurator.vfResourceMatches requested e :=
      hpre e (List.mem_cons_self e rest)
    simpa [VgpuProfileConfigurator.findVfResource, he] using
      ih (fun x hx => hpre x (List.mem_cons_of_mem e hx))

theorem findVfResource_none (requested : Nat)
    (l : List VgpuProfileVfResourcesDefinition)
    (h : ∀ e ∈ l, ¬ VgpuProfileConfigurator.vfResourceMatches requested e) :
    VgpuProfileConfigurator.findVfResource requested l = none := by
  induction l with
  | nil => rfl
  | cons e rest ih =>
    have he := h e (List.mem_cons_self e rest)
    simpa [VgpuProfileConfigurator.findVfResource, he] using
      ih (fun x hx => h x (List.mem_cons_of_mem e hx))

/-- C1: The claim fails on the code: with catalog order `[4-VF, 3-VF]` and
request 3, the scan matches the approximate 4-VF entry first and breaks, so
the exact 3-VF entry's values are never returned. -/
theorem select_exact_not_preferred_cex :
    VgpuProfileConfigurator.select_vgpu_resources_profile defsApproxFirst 3 =
      .ok { vfLmem := 400, vfContexts := 40, vfDoorbells := 14, vfGgtt := 4000 } ∧
    ({ vfLmem := 400, vfContexts := 40, vfDoorbells := 14, vfGgtt := 4000 } :
        VgpuResourcesConfig) ≠
      { vfLmem := 300, vfContexts := 30, vfDoorbells := 13, vfGgtt := 3000 } :=
  ⟨rfl, by decide⟩

/-- C1 (amended): profile selection returns the exact entry's values
unchanged provided no entry placed before it in catalog order matches
exactly or approximately — in particular for a catalog sorted by ascending
VF count. -/
theorem select_exact_first_in_order (defs : VgpuProfilesDefinitions)
    (requested : Nat) (pre post : List VgpuProfileVfResourcesDefinition)
    (r : VgpuProfileVfResourcesDefinition)
    (hsplit : defs.vf_resources = pre ++ r :: post)
    (hpre : ∀ e ∈ pre, ¬ VgpuProfileConfigurator.vfResourceMatches requested e)
    (hr : r.vf_count = requested) :
    VgpuProfileConfigurator.select_vgpu_resources_profile defs requested =
      .ok (VgpuProfileConfigurator.applyVfResource
            (VgpuProfileConfigurator.pfResourcesPass defs) r) := by
  unfold VgpuProfileConfigurator.select_vgpu_resources_profile
  rw [hsplit, findVfResource_first requested pre post r hpre (Or.inl hr)]

/-- C1 witness: on the ascending catalog `[3-VF, 4-VF]`, request 3 returns
the exact 3-VF entry's values. -/
theorem select_exact_first_in_order_witness :
    VgpuProfileConfigurator.select_vgpu_resources_profile defsSorted 3 =
      .ok (VgpuProfileConfigurator.applyVfResource
            (VgpuProfileConfigurator.pfResourcesPass defsSorted) vfEntry3) :=
  select_exact_first_in_order defsSorted 3 [] [vfEntry4] vfEntry3 rfl
    (by simp) rfl

/-- C2: The claim fails on the code: with catalog order `[5-VF, 4-VF]` and
request 3 (no exact match; both entries lie in `(3, 5]`), the scan returns
the 5-VF entry — the first in catalog order — not the smallest (4-VF). -/
theorem select_approx_not_smallest_cex :
    VgpuProfileConfigurator.select_vgpu_resources_profile defsUnsorted 3 =
      .ok { vfLmem := 500, vfContexts := 50, vfDoorbells := 15, vfGgtt := 5000 } ∧
    ({ vfLmem := 500, vfContexts := 50, vfDoorbells := 15, vfGgtt := 5000 } :
        VgpuResourcesConfig) ≠
      { vfLmem := 400, vfContexts := 40, vfDoorbells := 14, vfGgtt := 4000 } ∧
    vfEntry4.vf_count < vfEntry5.vf_count :=
  ⟨rfl, by decide, by decide⟩

/-- C2 (amended): with no exact match, selection returns the first entry in
catalog order whose VF count lies in `(N, N+2]` (the smallest such entry
when the catalog is sorted by ascending VF count); when no entry matches
exactly or approximately, selection fails with `VgpuProfileError`. -/
theorem select_approx_first_or_not_found :
    (∀ (defs : VgpuProfilesDefinitions) (requested : Nat)
        (pre post : List VgpuProfileVfResourcesDefinition)
        (r : VgpuProfileVfResourcesDefinition),
      defs.vf_resources = pre ++ r :: post →
      (∀ e ∈ pre, ¬ VgpuProfileConfigurator.vfResourceMatches requested e) →
      requested < r.vf_count → r.vf_count ≤ requested + 2 →
      VgpuProfileConfigurator.select_vgpu_resources_profile defs requested =
        .ok (VgpuProfileConfigurator.applyVfResource
              (VgpuProfileConfigurator.pfResourcesPass defs) r)) ∧
    (∀ (defs : VgpuProfilesDefinitions) (requested : Nat),
      (∀ e ∈ defs.vf_resources,
        ¬ VgpuProfileConfigurator.vfResourceMatches requested e) →
      VgpuProfileConfigurator.select_vgpu_resources_profile defs requested =
        .error (.VgpuProfileError "vGPU VF resources profile not found!")) := by
  constructor
  · intro defs requested pre post r hsplit hpre hlt hle
    unfold VgpuProfileConfigurator.select_vgpu_resources_profile
    rw [hsplit, findVfResource_first requested pre post r hpre (Or.inr ⟨hlt, hle⟩)]
  · intro defs requested h
    unfold VgpuProfileConfigurator.select_vgpu_resources_profile
    rw [findVfResource_none requested defs.vf_resources h]

/-- C2 witness: on `[5-VF, 4-VF]` and request 3 the first in-range entry
(5-VF) is returned; on the ascending catalog `[3-VF, 4-VF]` a request for
9 VFs fails with `VgpuProfileError`. -/
theorem select_approx_first_or_not_found_witness :
    VgpuProfileConfigurator.select_vgpu_resources_profile defsUnsorted 3 =
      .ok (VgpuProfileConfigurator.applyVfResource
            (VgpuProfileConfigurator.pfResourcesPass defsUnsorted) vfEntry5) ∧
    VgpuProfileConfigurator.select_vgpu_resources_profile defsSorted 9 =
      .error (.VgpuProfileError "vGPU VF resources profile not found!") :=
  ⟨select_approx_first_or_not_found.1 defsUnsorted 3 [] [vfEntry4] vfEntry5 rfl
      (by simp) (by decide) (by decide),
   select_approx_first_or_not_found.2 defsSorted 9 (by decide)⟩

/-! ## Scheduler profile selection (C10) -/

theorem schedulerFold_no_match (n : Nat) (target : String)
    (l : List VgpuProfileSchedulerDefinition) (acc : VgpuSchedulerConfig)
    (h : ∀ sc ∈ l, sc.profile_name ≠ target) :
    l.foldl (VgpuProfileConfigurator.schedulerFoldStep n target) acc = acc := by
  induction l generalizing acc with
  | nil => rfl
  | cons sc rest ih =>
    have hsc := h sc (List.mem_cons_self sc rest)
    simp only [List.foldl_cons]
    rw [show VgpuProfileConfigurator.schedulerFoldStep n target acc sc = acc by
      simp [VgpuProfileConfigurator.schedulerFoldStep, hsc]]
    exact ih acc (fun x hx => h x (List.mem_cons_of_mem sc hx))

/-- C10: For every scheduling mode other than `INFINITE` whose string value
matches no catalog scheduler entry, `select_vgpu_scheduler_profile` returns
the default all-zero config without raising any error. -/
theorem select_scheduler_unknown_default (defs : VgpuProfilesDefinitions)
    (n : Nat) (mode : VfSchedulingMode) (hmode : mode ≠ .INFINITE)
    (hnone : ∀ sc ∈ defs.scheduler_configs, sc.profile_name ≠ mode.str) :
    VgpuProfileConfigurator.select_vgpu_scheduler_profile defs n mode =
      { scheduleIfIdle := false, pfExecutionQuanta := 0, pfPreemptionTimeout := 0,
        vfExecutionQuanta := 0, vfPreemptionTimeout := 0 } := by
  unfold VgpuProfileConfigurator.select_vgpu_scheduler_profile
  rw [if_neg hmode, schedulerFold_no_match n mode.str defs.scheduler_configs _ hnone]

/-- C10 witness: on a catalog with no scheduler entries, requesting the
`Fixed_30fps_GPUTimeSlicing` mode yields the all-zero config. -/
theorem select_scheduler_unknown_default_witness :
    VfSchedulingMode.FIXED_30FPS ≠ VfSchedulingMode.INFINITE ∧
    VgpuProfileConfigurator.select_vgpu_scheduler_profile defsSorted 4
        VfSchedulingMode.FIXED_30FPS =
      { scheduleIfIdle := false, pfExecutionQuanta := 0, pfPreemptionTimeout := 0,
        vfExecutionQuanta := 0, vfPreemptionTimeout := 0 } :=
  ⟨by decide,
   select_scheduler_unknown_default defsSorted 4 VfSchedulingMode.FIXED_30FPS
     (by decide) (by simp [defsSorted, mkDefs])⟩

/-! ## QMP monitor queue ordering (C7) -/

theorem drainAll_eq_items {α : Type} (q : Queue α) : q.drainAll = q.items := by
  obtain ⟨items⟩ := q
  induction items with
  | nil => simp [Queue.drainAll]
  | cons a rest ih => simpa [Queue.drainAll] using ih

theorem queue_qmp_output_items {α : Type} (decode : String → α)
    (lines : List String) (q : Queue α) (hne : ∀ l ∈ lines, l ≠ "") :
    (QmpMonitor.queue_qmp_output decode lines q).items =
      q.items ++ lines.map decode := by
  induction lines generalizing q with
  | nil => simp [QmpMonitor.queue_qmp_output]
  | cons line rest ih =>
    have hl : line ≠ "" := hne line (List.mem_cons_self line rest)
    rw [show QmpMonitor.queue_qmp_output decode (line :: rest) q =
          QmpMonitor.queue_qmp_output decode rest (q.put (decode line)) by
        simp [QmpMonitor.queue_qmp_output, hl]]
    rw [ih (q.put (decode line)) (fun x hx => hne x (List.mem_cons_of_mem line hx))]
    simp [Queue.put]

/-- C7: the background reader pushes each decoded object onto the shared
FIFO queue in arrival order, so a single consumer popping it (`drainAll`)
receives the decoded messages in exactly the order the lines were written
to the socket — no reordering, no loss. -/
theorem qmp_queue_fifo_order (α : Type) (decode : String → α)
    (lines : List String) (hne : ∀ l ∈ lines, l ≠ "") :
    (QmpMonitor.queue_qmp_output decode lines ⟨[]⟩).items = lines.map decode ∧
    (QmpMonitor.queue_qmp_output decode lines ⟨[]⟩).drainAll = lines.map decode := by
  have h := queue_qmp_output_items decode lines ⟨[]⟩ hne
  simp only [List.nil_append] at h
  exact ⟨h, by rw [drainAll_eq_items, h]⟩

/-- C7 witness: three tagged lines arrive and are delivered in order. -/
theorem qmp_queue_fifo_order_witness :
    (QmpMonitor.queue_qmp_output String.length ["m1", "m22", "m333"] ⟨[]⟩).items =
      [2, 3, 4] ∧
    (QmpMonitor.queue_qmp_output String.length ["m1", "m22", "m333"] ⟨[]⟩).drainAll =
      [2, 3, 4] :=
  qmp_queue_fifo_order Nat String.length ["m1", "m22", "m333"] (by decide)

/-! ## QMP `query_jobs` (C8) -/

theorem queryJobsLoop_first (requested : String)
    (pre post : List QmpMonitor.JobRecord) (r : QmpMonitor.JobRecord)
    (hpre : ∀ e ∈ pre, e.jtype ≠ some requested)
    (hr : r.jtype = some requested) :
    ∀ acc, QmpMonitor.queryJobsLoop requested acc (pre ++ r :: post) =
      (r.status, r.error) := by
  induction pre with
  | nil => intro acc; simp [QmpMonitor.queryJobsLoop, hr]
  | cons e rest ih =>
    intro acc
    have he := hpre e (List.mem_cons_self e rest)
    simpa [QmpMonitor.queryJobsLoop, he] using
      ih (fun x hx => hpre x (List.mem_cons_of_mem e hx)) (e.status, e.error)

/-- C8: whenever the popped response carries a job-record list containing a
record whose type equals the requested job type, `query_jobs` returns that
(first such) record's `(status, error)` pair. -/
theorem query_jobs_returns_matching (requested : String)
    (jobs pre post : List QmpMonitor.JobRecord) (r : QmpMonitor.JobRecord)
    (hsplit : jobs = pre ++ r :: post)
    (hpre : ∀ e ∈ pre, e.jtype ≠ some requested)
    (hr : r.jtype = some requested) :
    QmpMonitor.query_jobs requested (some jobs) = (r.status, r.error) := by
  rw [hsplit]
  exact queryJobsLoop_first requested pre post r hpre hr (some "", some "")

/-- C8 witness: a response holding a non-matching record followed by a
matching `snapshot-save` record yields the matching record's pair. -/
theorem query_jobs_returns_matching_witness :
    QmpMonitor.query_jobs "snapshot-save"
        (some [⟨some "backup", some "running", none⟩,
               ⟨some "snapshot-save", some "concluded", some "io error"⟩]) =
      (some "concluded", some "io error") :=
  query_jobs_returns_matching "snapshot-save" _
    [⟨some "backup", some "running", none⟩] []
    ⟨some "snapshot-save", some "concluded", some "io error"⟩ rfl (by decide) rfl

/-! ## Guest agent send (C9) -/

/-- C9: in `GuestAgentBackend.__send`, a response object carrying an `error`
member is only logged — the object is returned to the caller unchanged, and
no response content makes this layer raise — while a socket read timeout is
raised as `GuestAgentError`. -/
theorem guest_send_only_timeout_raises :
    (∀ (α : Type) (hasError : α → Bool) (msg : α),
      GuestAgentBackend.send hasError (.line msg) = .ok msg) ∧
    (∀ (α : Type) (hasError : α → Bool),
      GuestAgentBackend.send hasError (.timeout : GuestAgentBackend.ReadOutcome α) =
        .error (.GuestAgentError "Socket timed out")) :=
  ⟨fun _ _ _ => rfl, fun _ _ => rfl⟩

/-! ## Device VF lifecycle (C3, C4) -/

/-- A fully functional device: every write is stored unchanged. -/
def envId : DriverEnv := ⟨fun m => m, fun b => b⟩

/-- A device that refuses `numvfs` writes (always stores 0), while
autoprobe writes work. -/
def envZero : DriverEnv := ⟨fun _ => 0, fun b => b⟩

/-- A quiescent device state: two GTs, no VFs, autoprobe enabled, all
provisioning attributes zero, lowest priority. -/
def stZero : SysfsState :=
  { num_gts := 2, numvfs := 0, autoprobe := 1,
    sched_if_idle := fun _ => 0, reset_engine := fun _ => 0,
    sched_priority := fun _ => .LOW,
    exec_quantum := fun _ _ => 0, preempt_timeout := fun _ _ => 0,
    doorbells_quota := fun _ _ => 0, lmem_quota := fun _ _ => 0,
    ggtt_quota := fun _ _ => 0, contexts_quota := fun _ _ => 0 }

/-- A device state with three VFs currently enabled. -/
def stActive : SysfsState := { stZero with numvfs := 3 }

/-- `true` exactly when a result is a raised `HostError`. -/
def isHostErrorResult {β : Type} : Except PyError β → Bool
  | .error (.HostError _) => true
  | _ => false

/-- C3: The claim fails on the code: on a device whose `numvfs` write does
not take (readback 0 after writing 2), `create_vf` fails with Python's
`AssertionError` from the bare `assert ret == num`, not with `HostError`. -/
theorem create_vf_assertion_not_hosterror_cex :
    (Device.create_vf envZero 2 stZero).2 = .error .AssertionError ∧
    envZero.applyNumvfs 2 ≠ 2 ∧
    isHostErrorResult (Device.create_vf envZero 2 stZero).2 = false :=
  ⟨rfl, by decide, rfl⟩

/-- C3 (amended): `create_vf(n)` first removes currently active VFs when the
current count is non-zero, disables driver autoprobe, writes `n` and reads
the count back, failing with `AssertionError` (a bare `assert`, not the
`HostError` used elsewhere) whenever the readback disagrees with `n`; on
success it returns the confirmed count `n`.  The first conjunct exhibits the
full driver-call sequence on a functional device with active VFs; the second
is the readback-mismatch behaviour. -/
theorem create_vf_readback (env : DriverEnv) (n : Nat) (s : SysfsState) :
    ((∀ m, env.applyNumvfs m = m) → (∀ b, env.applyAutoprobe b = b) →
      s.numvfs ≠ 0 →
      Device.create_vf env n s =
        ([.getNumvfs, .setNumvfs 0, .getNumvfs, .setAutoprobe 1, .getAutoprobe,
          .setAutoprobe 0, .getAutoprobe, .setNumvfs n, .getNumvfs],
         .ok (n, { s with numvfs := n, autoprobe := 0 }))) ∧
    ((∀ b, env.applyAutoprobe b = b) → env.applyNumvfs 0 = 0 →
      env.applyNumvfs n ≠ n →
      (Device.create_vf env n s).2 = .error .AssertionError) := by
  constructor
  · intro hnum hap hs
    simp [Device.create_vf, Device.remove_vfs, Device.set_drivers_autoprobe,
      Except.map, hnum, hap, hs]
  · intro hap h0 hn
    by_cases hs : s.numvfs = 0 <;>
      simp [Device.create_vf, Device.remove_vfs, Device.set_drivers_autoprobe,
        Except.map, hap, h0, hn, hs]

/-- C3 witness: on a functional device with 3 active VFs, `create_vf 2`
issues remove-then-create and returns 2; on the refusing device the
readback mismatch raises `AssertionError`. -/
theorem create_vf_readback_witness :
    Device.create_vf envId 2 stActive =
      ([.getNumvfs, .setNumvfs 0, .getNumvfs, .setAutoprobe 1, .getAutoprobe,
        .setAutoprobe 0, .getAutoprobe, .setNumvfs 2, .getNumvfs],
       .ok (2, { stActive with numvfs := 2, autoprobe := 0 })) ∧
    (Device.create_vf envZero 2 stZero).2 = .error .AssertionError :=
  ⟨(create_vf_readback envId 2 stActive).1 (fun _ => rfl) (fun _ => rfl)
      (by decide),
   (create_vf_readback envZero 2 stZero).2 (fun _ => rfl) rfl (by decide)⟩

/-- `create_vf(n)` immediately followed by `remove_vfs()` (the claim's
scenario), observed through the returned result. -/
def createThenRemove (env : DriverEnv) (num : Nat) (s : SysfsState) :
    Except PyError (Nat × SysfsState) :=
  ((Device.create_vf env num s).2).bind fun p => (Device.remove_vfs env p.2).2

/-- C4: on a functional device, for every starting state and every `n`,
`create_vf(n)` then `remove_vfs()` returns 0 and leaves the VF count at 0
with autoprobe re-enabled; and whenever the readback after the 0 write is
non-zero, `remove_vfs` raises `HostError`. -/
theorem create_then_remove_resets (env : DriverEnv) (n : Nat) (s : SysfsState) :
    ((∀ m, env.applyNumvfs m = m) → (∀ b, env.applyAutoprobe b = b) →
      createThenRemove env n s = .ok (0, { s with numvfs := 0, autoprobe := 1 })) ∧
    (env.applyNumvfs 0 ≠ 0 →
      (Device.remove_vfs env s).2 =
        .error (.HostError "VFs not disabled after 0 write")) := by
  constructor
  · intro hnum hap
    by_cases hs : s.numvfs = 0 <;>
      simp [createThenRemove, Device.create_vf, Device.remove_vfs,
        Device.set_drivers_autoprobe, Except.map, hnum, hap, hs, Except.bind]
  · intro h0
    simp [Device.remove_vfs, h0]

/-- C4 witness: concrete run on the functional device starting from 3
active VFs, plus the `HostError` on the refusing device. -/
theorem create_then_remove_resets_witness :
    createThenRemove envId 2 stActive =
      .ok (0, { stActive with numvfs := 0, autoprobe := 1 }) ∧
    (Device.remove_vfs ⟨fun _ => 1, fun b => b⟩ stZero).2 =
      .error (.HostError "VFs not disabled after 0 write") :=
  ⟨(create_then_remove_resets envId 2 stActive).1 (fun _ => rfl) (fun _ => rfl),
   (create_then_remove_resets ⟨fun _ => 1, fun b => b⟩ 2 stZero).2 (by decide)⟩

/-! ## Provisioning VF/GT assignment (C6) -/

/-- Function number targeted by a driver call (PF policy and device-global
calls target function 0). -/
def callFn : DriverCall → Nat
  | .setExecQuantumMs fn _ _ => fn
  | .setPreemptTimeoutUs fn _ _ => fn
  | .setDoorbellsQuota fn _ _ => fn
  | .setLmemQuota fn _ _ => fn
  | .setGgttQuota fn _ _ => fn
  | .setContextsQuota fn _ _ => fn
  | _ => 0

/-- The GT set stated by the spec (for comparison with the code): single
tile → GT0; multi-tile with a single VF → both GT0 and GT1; multi-tile with
more than one VF → odd VF numbers on GT0, even on GT1. -/
def specVfGtSet (num_gts num_vfs v : Nat) : List Nat :=
  if num_gts = 1 then [0]
  else if num_vfs = 1 then [0, 1]
  else if v % 2 = 1 then [0] else [1]

theorem callFn_pfProvision (profile : VgpuProfile) (gtn : Nat) :
    ∀ c ∈ Device.pfProvisionCalls profile gtn, callFn c = 0 := by
  intro c hc
  simp [Device.pfProvisionCalls] at hc
  rcases hc with rfl | rfl | rfl | rfl | rfl <;> rfl

theorem callFn_vfProvision (profile : VgpuProfile) (u gtn : Nat) :
    ∀ c ∈ Device.vfProvisionCalls profile u gtn, callFn c = u := by
  intro c hc
  simp [Device.vfProvisionCalls] at hc
  rcases hc with rfl | rfl | rfl | rfl | rfl | rfl <;> rfl

theorem filter_pf_part_nil (profile : VgpuProfile) (num_gts v : Nat) (hv : 1 ≤ v) :
    ((Device.pfGtNums num_gts).flatMap (Device.pfProvisionCalls profile)).filter
        (fun c => callFn c == v) = [] := by
  rw [List.filter_eq_nil_iff]
  intro c hc
  rw [List.mem_flatMap] at hc
  obtain ⟨gtn, _, hcg⟩ := hc
  have h0 := callFn_pfProvision profile gtn c hcg
  simp [h0]
  omega

theorem filter_flatMap_key (g : Nat → List DriverCall) (v : Nat)
    (hg : ∀ u, ∀ c ∈ g u, callFn c = u) :
    ∀ (l : List Nat), l.Nodup → v ∈ l →
      (l.flatMap g).filter (fun c => callFn c == v) = g v := by
  intro l
  induction l with
  | nil => simp
  | cons a rest ih =>
    intro hnd hv
    rw [List.flatMap_cons, List.filter_append]
    rcases List.mem_cons.mp hv with rfl | hmem
    · have h1 : (g v).filter (fun c => callFn c == v) = g v := by
        rw [List.filter_eq_self]
        intro c hc
        simp [hg v c hc]
      have h2 : (rest.flatMap g).filter (fun c => callFn c == v) = [] := by
        rw [List.filter_eq_nil_iff]
        intro c hc
        rw [List.mem_flatMap] at hc
        obtain ⟨u, hu, hcu⟩ := hc
        have hcf := hg u c hcu
        have hne : u ≠ v := fun h => (List.nodup_cons.mp hnd).1 (h ▸ hu)
        simp [hcf, hne]
      rw [h1, h2, List.append_nil]
    · have h1 : (g a).filter (fun c => callFn c == v) = [] := by
        rw [List.filter_eq_nil_iff]
        intro c hc
        have hcf := hg a c hc
        have hne : a ≠ v := fun h => (List.nodup_cons.mp hnd).1 (h ▸ hmem)
        simp [hcf, hne]
      rw [h1, List.nil_append]
      exact ih (List.nodup_cons.mp hnd).2 hmem

theorem vfGtNums_eq_spec (num_gts num_vfs v : Nat) (h1 : 1 ≤ num_gts)
    (h2 : 1 ≤ num_vfs) :
    Device.vfGtNums num_gts num_vfs v = specVfGtSet num_gts num_vfs v := by
  unfold Device.vfGtNums specVfGtSet Device.pfGtNums
  by_cases e1 : num_gts = 1
  · have : ¬ (1 < num_gts ∧ 1 < num_vfs) := by omega
    simp [e1, this]
  · by_cases e2 : num_vfs = 1
    · have : ¬ (1 < num_gts ∧ 1 < num_vfs) := by omega
      simp [e1, e2, this]
    · have hcond : 1 < num_gts ∧ 1 < num_vfs := by omega
      simp [e1, e2, hcond]

/-- C6: the writes `provision` issues for VF number `v` are exactly the six
per-(VF, GT) attributes (lmem, ggtt, contexts, doorbells quotas plus
execution quantum and preemption timeout) on the GT set determined only by
tile count and `num_vfs`: single tile → GT0; multi-tile with one VF → GT0
and GT1; multi-tile with several VFs → odd `v` on GT0, even `v` on GT1. -/
theorem provision_vf_gt_assignment (env : DriverEnv) (profile : VgpuProfile)
    (s : SysfsState) (v : Nat) (hv1 : 1 ≤ v) (hv2 : v ≤ profile.num_vfs)
    (hgts : 1 ≤ s.num_gts) :
    ((Device.provision env profile s).1).filter (fun c => callFn c == v) =
      (specVfGtSet s.num_gts profile.num_vfs v).flatMap
        (Device.vfProvisionCalls profile v) := by
  have hg : ∀ u, ∀ c ∈ (Device.vfGtNums s.num_gts profile.num_vfs u).flatMap
      (Device.vfProvisionCalls profile u), callFn c = u := by
    intro u c hc
    rw [List.mem_flatMap] at hc
    obtain ⟨gtn, _, hcg⟩ := hc
    exact callFn_vfProvision profile u gtn c hcg
  have hvmem : v ∈ List.range' 1 profile.num_vfs := by
    rw [List.mem_range'_1]
    omega
  show (Device.provisionCalls profile s.num_gts).filter (fun c => callFn c == v) = _
  rw [Device.provisionCalls, List.filter_append,
    filter_pf_part_nil profile s.num_gts v hv1, List.nil_append,
    filter_flatMap_key _ v hg (List.range' 1 profile.num_vfs)
      (List.nodup_range' 1 profile.num_vfs) hvmem,
    vfGtNums_eq_spec s.num_gts profile.num_vfs v hgts (le_trans hv1 hv2)]

/-- A profile with two VFs' worth of non-trivial quotas and three VFs. -/
def profW : VgpuProfile :=
  { num_vfs := 3,
    scheduler := { scheduleIfIdle := true, pfExecutionQuanta := 20,
                   pfPreemptionTimeout := 40, vfExecutionQuanta := 25,
                   vfPreemptionTimeout := 50 },
    resources := { pfLmem := 1000, pfContexts := 2000, pfDoorbells := 32,
                   pfGgtt := 4096, vfLmem := 500, vfContexts := 100,
                   vfDoorbells := 16, vfGgtt := 2048 },
    reset_after_vf_switch := true }

/-- A two-GT device state whose provisioning attributes hold non-zero
junk. -/
def stDirty : SysfsState :=
  { num_gts := 2, numvfs := 0, autoprobe := 1,
    sched_if_idle := fun _ => 5, reset_engine := fun _ => 6,
    sched_priority := fun _ => .HIGH,
    exec_quantum := fun _ _ => 7, preempt_timeout := fun _ _ => 8,
    doorbells_quota := fun _ _ => 9, lmem_quota := fun _ _ => 10,
    ggtt_quota := fun _ _ => 11, contexts_quota := fun _ _ => 12 }

/-- C6 witness: on a two-tile device with three VFs, the writes for (even)
VF 2 are exactly the six quota/scheduling writes on GT1. -/
theorem provision_vf_gt_assignment_witness :
    ((Device.provision envId profW stDirty).1).filter (fun c => callFn c == 2) =
      (specVfGtSet stDirty.num_gts profW.num_vfs 2).flatMap
        (Device.vfProvisionCalls profW 2) :=
  provision_vf_gt_assignment envId profW stDirty 2 (by decide) (by decide)
    (by decide)

/-! ## Provision-then-reset (C5) -/

/-- `provision(profile)` immediately followed by
`reset_provisioning(profile.num_vfs)` (the claim's scenario). -/
def provisionThenReset (env : DriverEnv) (profile : VgpuProfile)
    (s : SysfsState) : SysfsState :=
  Device.reset_provisioning env profile.num_vfs (Device.provision env profile s).2

/-- On GT `gt`, every field `reset_provisioning` clears is clear: PF policy
fields, PF execution quantum/preemption timeout, PF doorbells, lowest
scheduling priority, and every VF's contexts/doorbells/ggtt/lmem quota for
VFs `1..num_vfs`. -/
def gtFullyReset (num_vfs gt : Nat) (s : SysfsState) : Prop :=
  s.sched_if_idle gt = 0 ∧ s.reset_engine gt = 0 ∧
  s.exec_quantum 0 gt = 0 ∧ s.preempt_timeout 0 gt = 0 ∧
  s.doorbells_quota 0 gt = 0 ∧
  s.sched_priority gt = SchedulingPriority.LOW ∧
  ∀ v, 1 ≤ v → v ≤ num_vfs →
    s.contexts_quota v gt = 0 ∧ s.doorbells_quota v gt = 0 ∧
    s.ggtt_quota v gt = 0 ∧ s.lmem_quota v gt = 0

theorem zeroBlock_eq (env : DriverEnv) (v gt : Nat) (s : SysfsState) :
    Device.zeroBlock env v gt s =
      { s with
        contexts_quota := upd2 s.contexts_quota v gt 0
        doorbells_quota := upd2 s.doorbells_quota v gt 0
        ggtt_quota := upd2 s.ggtt_quota v gt 0
        lmem_quota := upd2 s.lmem_quota v gt 0 } := rfl

theorem zq_untouched (env : DriverEnv) (gt : Nat) :
    ∀ (l : List Nat) (s : SysfsState),
      (Device.zeroVfQuotas env gt l s).sched_if_idle = s.sched_if_idle ∧
      (Device.zeroVfQuotas env gt l s).reset_engine = s.reset_engine ∧
      (Device.zeroVfQuotas env gt l s).sched_priority = s.sched_priority ∧
      (Device.zeroVfQuotas env gt l s).exec_quantum = s.exec_quantum ∧
      (Device.zeroVfQuotas env gt l s).preempt_timeout = s.preempt_timeout := by
  intro l
  induction l with
  | nil => intro s; exact ⟨rfl, rfl, rfl, rfl, rfl⟩
  | cons u rest ih =>
    intro s
    simpa [Device.zeroVfQuotas, zeroBlock_eq] using ih (Device.zeroBlock env u gt s)

theorem zq_quota_zero_pres (env : DriverEnv) (gt a b : Nat) :
    ∀ (l : List Nat) (s : SysfsState),
      (s.contexts_quota a b = 0 →
        (Device.zeroVfQuotas env gt l s).contexts_quota a b = 0) ∧
      (s.doorbells_quota a b = 0 →
        (Device.zeroVfQuotas env gt l s).doorbells_quota a b = 0) ∧
      (s.ggtt_quota a b = 0 →
        (Device.zeroVfQuotas env gt l s).ggtt_quota a b = 0) ∧
      (s.lmem_quota a b = 0 →
        (Device.zeroVfQuotas env gt l s).lmem_quota a b = 0) := by
  intro l
  induction l with
  | nil => intro s; exact ⟨id, id, id, id⟩
  | cons u rest ih =>
    intro s
    refine ⟨?_, ?_, ?_, ?_⟩ <;> intro h <;>
      simp only [Device.zeroVfQuotas]
    · exact (ih (Device.zeroBlock env u gt s)).1
        (by simp [zeroBlock_eq, upd2, h])
    · exact (ih (Device.zeroBlock env u gt s)).2.1
        (by simp [zeroBlock_eq, upd2, h])
    · exact (ih (Device.zeroBlock env u gt s)).2.2.1
        (by simp [zeroBlock_eq, upd2, h])
    · exact (ih (Device.zeroBlock env u gt s)).2.2.2
        (by simp [zeroBlock_eq, upd2, h])

theorem zq_mem_zero (env : DriverEnv) (gt : Nat) :
    ∀ (l : List Nat) (s : SysfsState) (v : Nat), v ∈ l →
      (Device.zeroVfQuotas env gt l s).contexts_quota v gt = 0 ∧
      (Device.zeroVfQuotas env gt l s).doorbells_quota v gt = 0 ∧
      (Device.zeroVfQuotas env gt l s).ggtt_quota v gt = 0 ∧
      (Device.zeroVfQuotas env gt l s).lmem_quota v gt = 0 := by
  intro l
  induction l with
  | nil => intro s v hv; simp at hv
  | cons u rest ih =>
    intro s v hv
    simp only [Device.zeroVfQuotas]
    rcases List.mem_cons.mp hv with rfl | hmem
    · have hz : (Device.zeroBlock env v gt s).contexts_quota v gt = 0 ∧
          (Device.zeroBlock env v gt s).doorbells_quota v gt = 0 ∧
          (Device.zeroBlock env v gt s).ggtt_quota v gt = 0 ∧
          (Device.zeroBlock env v gt s).lmem_quota v gt = 0 := by
        simp [zeroBlock_eq, upd2]
      have hp := zq_quota_zero_pres env gt v gt rest (Device.zeroBlock env v gt s)
      exact ⟨hp.1 hz.1, hp.2.1 hz.2.1, hp.2.2.1 hz.2.2.1, hp.2.2.2 hz.2.2.2⟩
    · exact ih (Device.zeroBlock env u gt s) v hmem

theorem priorityRestore_prio (env : DriverEnv) (gt : Nat) (s : SysfsState) :
    (Device.priorityRestore env gt s).sched_priority gt = SchedulingPriority.LOW := by
  unfold Device.priorityRestore
  split_ifs with h
  · simp [applyCall, upd1]
  · exact not_not.mp h

theorem priorityRestore_prio_pres (env : DriverEnv) (gt gt' : Nat) (s : SysfsState)
    (h : s.sched_priority gt = SchedulingPriority.LOW) :
    (Device.priorityRestore env gt' s).sched_priority gt = SchedulingPriority.LOW := by
  unfold Device.priorityRestore
  split_ifs with h'
  · simp only [applyCall, upd1]
    split_ifs with hgt
    · rfl
    · exact h
  · exact h

theorem priorityRestore_untouched (env : DriverEnv) (gt : Nat) (s : SysfsState) :
    (Device.priorityRestore env gt s).sched_if_idle = s.sched_if_idle ∧
    (Device.priorityRestore env gt s).reset_engine = s.reset_engine ∧
    (Device.priorityRestore env gt s).exec_quantum = s.exec_quantum ∧
    (Device.priorityRestore env gt s).preempt_timeout = s.preempt_timeout ∧
    (Device.priorityRestore env gt s).doorbells_quota = s.doorbells_quota ∧
    (Device.priorityRestore env gt s).contexts_quota = s.contexts_quota ∧
    (Device.priorityRestore env gt s).ggtt_quota = s.ggtt_quota ∧
    (Device.priorityRestore env gt s).lmem_quota = s.lmem_quota := by
  unfold Device.priorityRestore
  split_ifs <;> exact ⟨rfl, rfl, rfl, rfl, rfl, rfl, rfl, rfl⟩

theorem pfZeroWrites_eq (env : DriverEnv) (gt : Nat) (s : SysfsState) :
    Device.pfZeroWrites env gt s =
      { s with
        sched_if_idle := upd1 s.sched_if_idle gt 0
        reset_engine := upd1 s.reset_engine gt 0
        exec_quantum := upd2 s.exec_quantum 0 gt 0
        preempt_timeout := upd2 s.preempt_timeout 0 gt 0
        doorbells_quota := upd2 s.doorbells_quota 0 gt 0 } := rfl

theorem resetGt_establish (env : DriverEnv) (num_vfs gt : Nat) (s : SysfsState) :
    gtFullyReset num_vfs gt (Device.resetGt env num_vfs gt s) := by
  obtain ⟨z1, z2, z3, z4, z5⟩ :=
    zq_untouched env gt (List.range' 1 num_vfs)
      (Device.pfZeroWrites env gt (Device.priorityRestore env gt s))
  have hdb : (Device.pfZeroWrites env gt
      (Device.priorityRestore env gt s)).doorbells_quota 0 gt = 0 := by
    simp [pfZeroWrites_eq, upd2]
  refine ⟨?_, ?_, ?_, ?_, ?_, ?_, ?_⟩
  · show (Device.zeroVfQuotas env gt _ _).sched_if_idle gt = 0
    rw [z1]
    simp [pfZeroWrites_eq, upd1]
  · show (Device.zeroVfQuotas env gt _ _).reset_engine gt = 0
    rw [z2]
    simp [pfZeroWrites_eq, upd1]
  · show (Device.zeroVfQuotas env gt _ _).exec_quantum 0 gt = 0
    rw [z4]
    simp [pfZeroWrites_eq, upd2]
  · show (Device.zeroVfQuotas env gt _ _).preempt_timeout 0 gt = 0
    rw [z5]
    simp [pfZeroWrites_eq, upd2]
  · exact (zq_quota_zero_pres env gt 0 gt (List.range' 1 num_vfs) _).2.1 hdb
  · show (Device.zeroVfQuotas env gt _ _).sched_priority gt = SchedulingPriority.LOW
    rw [z3]
    rw [show (Device.pfZeroWrites env gt
        (Device.priorityRestore env gt s)).sched_priority =
        (Device.priorityRestore env gt s).sched_priority from rfl]
    exact priorityRestore_prio env gt s
  · intro v hv1 hv2
    exact zq_mem_zero env gt (List.range' 1 num_vfs) _ v
      (by rw [List.mem_range'_1]; omega)

theorem resetGt_preserve (env : DriverEnv) (num_vfs gt gt' : Nat) (s : SysfsState)
    (h : gtFullyReset num_vfs gt s) :
    gtFullyReset num_vfs gt (Device.resetGt env num_vfs gt' s) := by
  obtain ⟨h1, h2, h3, h4, h5, h6, h7⟩ := h
  obtain ⟨u1, u2, u3, u4, u5, u6, u7, u8⟩ :=
    priorityRestore_untouched env gt' s
  obtain ⟨z1, z2, z3, z4, z5⟩ :=
    zq_untouched env gt' (List.range' 1 num_vfs)
      (Device.pfZeroWrites env gt' (Device.priorityRestore env gt' s))
  have hdb : (Device.pfZeroWrites env gt'
      (Device.priorityRestore env gt' s)).doorbells_quota 0 gt = 0 := by
    simp [pfZeroWrites_eq, upd2, u5]
    intro
    exact h5
  refine ⟨?_, ?_, ?_, ?_, ?_, ?_, ?_⟩
  · show (Device.zeroVfQuotas env gt' _ _).sched_if_idle gt = 0
    rw [z1]
    simp [pfZeroWrites_eq, upd1, u1]
    intro
    exact h1
  · show (Device.zeroVfQuotas env gt' _ _).reset_engine gt = 0
    rw [z2]
    simp [pfZeroWrites_eq, upd1, u2]
    intro
    exact h2
  · show (Device.zeroVfQuotas env gt' _ _).exec_quantum 0 gt = 0
    rw [z4]
    simp [pfZeroWrites_eq, upd2, u3]
    intro
    exact h3
  · show (Device.zeroVfQuotas env gt' _ _).preempt_timeout 0 gt = 0
    rw [z5]
    simp [pfZeroWrites_eq, upd2, u4]
    intro
    exact h4
  · exact (zq_quota_zero_pres env gt' 0 gt (List.range' 1 num_vfs) _).2.1 hdb
  · show (Device.zeroVfQuotas env gt' _ _).sched_priority gt = SchedulingPriority.LOW
    rw [z3]
    rw [show (Device.pfZeroWrites env gt'
        (Device.priorityRestore env gt' s)).sched_priority =
        (Device.priorityRestore env gt' s).sched_priority from rfl]
    exact priorityRestore_prio_pres env gt gt' s h6
  · intro v hv1 hv2
    obtain ⟨q1, q2, q3, q4⟩ := h7 v hv1 hv2
    have hvz : v ≠ 0 := by omega
    have hp := zq_quota_zero_pres env gt' v gt (List.range' 1 num_vfs)
      (Device.pfZeroWrites env gt' (Device.priorityRestore env gt' s))
    refine ⟨hp.1 ?_, hp.2.1 ?_, hp.2.2.1 ?_, hp.2.2.2 ?_⟩
    · simp [pfZeroWrites_eq, upd2, u6, q1]
    · simp [pfZeroWrites_eq, upd2, u5, hvz, q2]
    · simp [pfZeroWrites_eq, upd2, u7, q3]
    · simp [pfZeroWrites_eq, upd2, u8, q4]

theorem foldl_mem_establish {β σ : Type} (P : β → σ → Prop) (step : σ → β → σ)
    (est : ∀ b s, P b (step s b)) (pres : ∀ b b' s, P b s → P b (step s b')) :
    ∀ (l : List β) (s : σ) (b : β), b ∈ l → P b (l.foldl step s) := by
  have aux : ∀ (l : List β) (s : σ) (b : β), P b s → P b (l.foldl step s) := by
    intro l
    induction l with
    | nil => intro s b h; exact h
    | cons a rest ih => intro s b h; exact ih (step s a) b (pres b a s h)
  intro l
  induction l with
  | nil => intro s b h; simp at h
  | cons a rest ih =>
    intro s b hb
    rcases List.mem_cons.mp hb with rfl | h
    · exact aux rest (step s b) b (est b s)
    · exact ih (step s a) b h

theorem applyCall_num_gts (env : DriverEnv) (s : SysfsState) (c : DriverCall) :
    (applyCall env s c).num_gts = s.num_gts := by
  cases c <;> rfl

theorem foldl_applyCall_num_gts (env : DriverEnv) :
    ∀ (l : List DriverCall) (s : SysfsState),
      (l.foldl (applyCall env) s).num_gts = s.num_gts := by
  intro l
  induction l with
  | nil => intro s; rfl
  | cons c rest ih =>
    intro s
    rw [List.foldl_cons, ih (applyCall env s c), applyCall_num_gts]

/-- C5: for every profile, `provision(profile)` followed by
`reset_provisioning(profile.num_vfs)` leaves, on every GT of the device,
the PF policy fields, PF execution quantum/preemption timeout and PF
doorbells at zero, the scheduling priority at its lowest value, and every
VF's contexts/doorbells/ggtt/lmem quota at zero for VFs `1..num_vfs`. -/
theorem provision_then_reset_zeroes (env : DriverEnv) (profile : VgpuProfile)
    (s : SysfsState) (gt v : Nat) (hgt : gt < s.num_gts) (hv1 : 1 ≤ v)
    (hv2 : v ≤ profile.num_vfs) :
    (provisionThenReset env profile s).sched_if_idle gt = 0 ∧
    (provisionThenReset env profile s).reset_engine gt = 0 ∧
    (provisionThenReset env profile s).exec_quantum 0 gt = 0 ∧
    (provisionThenReset env profile s).preempt_timeout 0 gt = 0 ∧
    (provisionThenReset env profile s).doorbells_quota 0 gt = 0 ∧
    (provisionThenReset env profile s).sched_priority gt = SchedulingPriority.LOW ∧
    (provisionThenReset env profile s).contexts_quota v gt = 0 ∧
    (provisionThenReset env profile s).doorbells_quota v gt = 0 ∧
    (provisionThenReset env profile s).ggtt_quota v gt = 0 ∧
    (provisionThenReset env profile s).lmem_quota v gt = 0 := by
  have hng : (Device.provision env profile s).2.num_gts = s.num_gts :=
    foldl_applyCall_num_gts env _ s
  have hmem : gt ∈ List.range (Device.provision env profile s).2.num_gts := by
    rw [hng]
    exact List.mem_range.mpr hgt
  have hP := foldl_mem_establish (gtFullyReset profile.num_vfs)
    (fun s' gtn => Device.resetGt env profile.num_vfs gtn s')
    (fun gtn s' => resetGt_establish env profile.num_vfs gtn s')
    (fun gtn gtn' s' h => resetGt_preserve env profile.num_vfs gtn gtn' s' h)
    (List.range (Device.provision env profile s).2.num_gts)
    (Device.provision env profile s).2 gt hmem
  obtain ⟨h1, h2, h3, h4, h5, h6, h7⟩ := hP
  obtain ⟨q1, q2, q3, q4⟩ := h7 v hv1 hv2
  exact ⟨h1, h2, h3, h4, h5, h6, q1, q2, q3, q4⟩

/-- C5 witness: on a two-GT device whose attributes start with non-zero
junk, provisioning the three-VF profile and resetting leaves GT1 fully
cleared, including VF 2's quotas. -/
theorem provision_then_reset_zeroes_witness :
    (provisionThenReset envId profW stDirty).sched_if_idle 1 = 0 ∧
    (provisionThenReset envId profW stDirty).reset_engine 1 = 0 ∧
    (provisionThenReset envId profW stDirty).exec_quantum 0 1 = 0 ∧
    (provisionThenReset envId profW stDirty).preempt_timeout 0 1 = 0 ∧
    (provisionThenReset envId profW stDirty).doorbells_quota 0 1 = 0 ∧
    (provisionThenReset envId profW stDirty).sched_priority 1 = SchedulingPriority.LOW ∧
    (provisionThenReset envId profW stDirty).contexts_quota 2 1 = 0 ∧
    (provisionThenReset envId profW stDirty).doorbells_quota 2 1 = 0 ∧
    (provisionThenReset envId profW stDirty).ggtt_quota 2 1 = 0 ∧
    (provisionThenReset envId profW stDirty).lmem_quota 2 1 = 0 :=
  provision_then_reset_zeroes envId profW stDirty 1 2 (by decide) (by decide)
    (by decide)
